import Mathlib

/-!
Verification of the tsconfig generator (src/src/lib.rs).

The program's core is `generate_tsconfig`, a pure mapping from a
`ProjectOptions` record to a JSON document, plus `init`, which resolves the
output directory from the project name, creates it, and writes the rendered
document to `tsconfig.json` inside it.  We embed the JSON values, the
serde_json map operations the code uses (`insert`, `extend`,
`as_object`), the generator itself (with `Option` modelling the `unwrap`
calls on `as_object_mut`), and a small filesystem state for `init`.
-/

/-- JSON values, restricted to the shapes the program builds. -/
inductive JVal where
  | bool : Bool → JVal
  | str : String → JVal
  | arr : List JVal → JVal
  | obj : List (String × JVal) → JVal

/-- serde_json `Map::insert`: replace the value when the key is present,
otherwise add the binding.  The map is modelled as an association list in
insertion order; no claim depends on the ordering of the entries. -/
def mapInsert (m : List (String × JVal)) (k : String) (v : JVal) :
    List (String × JVal) :=
  if m.any (fun kv => kv.1 == k) then
    m.map (fun kv => if kv.1 == k then (k, v) else kv)
  else m ++ [(k, v)]

/-- serde_json `Map::extend`: insert every binding of the second map. -/
def mapExtend (m : List (String × JVal)) (kvs : List (String × JVal)) :
    List (String × JVal) :=
  kvs.foldl (fun acc kv => mapInsert acc kv.1 kv.2) m

/-- Key lookup in the association-list map. -/
def lookupKey (m : List (String × JVal)) (k : String) : Option JVal :=
  match m with
  | [] => none
  | (k', v) :: rest => if k' == k then some v else lookupKey rest k

/-- serde_json `Value::as_object` / `as_object_mut`: succeeds exactly on
object values. -/
def asObject : JVal → Option (List (String × JVal))
  | JVal.obj fields => some fields
  | _ => none

/-- The three strictness levels of the prompt (`enum Strictness`). -/
inductive Strictness where
  | Off
  | On
  | Strict
deriving DecidableEq

/-- The options record collected by `prompt_options` (`struct ProjectOptions`). -/
structure ProjectOptions where
  project_name : String
  strictness : Strictness
  is_transpiler : Bool
  is_library : Bool
  is_monorepo : Bool
  is_dom : Bool

/-- Embedding of `generate_tsconfig` from src/src/lib.rs.  Each
`as_object_mut().unwrap()` of the source becomes a bind on `asObject`, so
the result is `none` exactly when some unwrap would panic. -/
def generate_tsconfig (options : ProjectOptions) : Option JVal := do
  let mut compiler_options : JVal := JVal.obj [
    ("esModuleInterop", JVal.bool true),
    ("skipLibCheck", JVal.bool true),
    ("target", JVal.str "es2022"),
    ("allowJs", JVal.bool true),
    ("resolveJsonModule", JVal.bool true),
    ("moduleDetection", JVal.str "force"),
    ("isolatedModules", JVal.bool true),
    ("verbatimModuleSyntax", JVal.bool true)]
  -- Strictness settings
  match options.strictness with
  | Strictness.Strict =>
      let m ← asObject compiler_options
      compiler_options := JVal.obj (mapExtend m [
        ("strict", JVal.bool true),
        ("noUncheckedIndexedAccess", JVal.bool true),
        ("noImplicitOverride", JVal.bool true)])
  | Strictness.On =>
      let m ← asObject compiler_options
      compiler_options := JVal.obj (mapInsert m "strict" (JVal.bool true))
  | Strictness.Off => pure ()
  -- Transpiling settings
  if options.is_transpiler then
    let m ← asObject compiler_options
    compiler_options := JVal.obj (mapExtend m [
      ("module", JVal.str "NodeNext"),
      ("outDir", JVal.str "dist"),
      ("sourceMap", JVal.bool true)])
  else
    let m ← asObject compiler_options
    compiler_options := JVal.obj (mapExtend m [
      ("module", JVal.str "preserve"),
      ("noEmit", JVal.bool true)])
  -- Library settings
  if options.is_library then
    let m ← asObject compiler_options
    compiler_options := JVal.obj (mapInsert m "declaration" (JVal.bool true))
  -- Monorepo settings
  if options.is_monorepo then
    let m ← asObject compiler_options
    compiler_options := JVal.obj (mapExtend m [
      ("composite", JVal.bool true),
      ("declarationMap", JVal.bool true)])
  -- DOM settings
  if options.is_dom then
    let m ← asObject compiler_options
    compiler_options := JVal.obj (mapInsert m "lib"
      (JVal.arr [JVal.str "es2022", JVal.str "dom", JVal.str "dom.iterable"]))
  else
    let m ← asObject compiler_options
    compiler_options := JVal.obj (mapInsert m "lib" (JVal.arr [JVal.str "es2022"]))
  pure (JVal.obj [("compilerOptions", compiler_options)])

/-- The compilerOptions mapping of the generated document (empty when the
generator fails, which the safety claim rules out). -/
def compilerOptionsOf (o : ProjectOptions) : List (String × JVal) :=
  ((((generate_tsconfig o).bind asObject).bind
      (fun top => lookupKey top "compilerOptions")).bind asObject).getD []

mutual

/-- JSON rendering of a value, standing in for serde_json
`to_string_pretty`.  The exact layout (indentation, separators) is
irrelevant to every claim: what matters is that rendering is a function of
the document alone. -/
def renderJVal : JVal → String
  | JVal.bool b => cond b "true" "false"
  | JVal.str s => "\"" ++ s ++ "\""
  | JVal.arr xs => "[" ++ renderItems xs ++ "]"
  | JVal.obj fs => "\x7b" ++ renderFields fs ++ "\x7d"

/-- Rendering of the elements of a JSON array. -/
def renderItems : List JVal → String
  | [] => ""
  | [x] => renderJVal x
  | x :: y :: rest => renderJVal x ++ "," ++ renderItems (y :: rest)

/-- Rendering of the fields of a JSON object. -/
def renderFields : List (String × JVal) → String
  | [] => ""
  | [(k, v)] => "\"" ++ k ++ "\":" ++ renderJVal v
  | (k, v) :: p :: rest =>
      "\"" ++ k ++ "\":" ++ renderJVal v ++ "," ++ renderFields (p :: rest)

end

/-- The bytes `init` writes to the tsconfig file: the rendered generated
document (the empty string when the generator fails, which the safety
claim rules out). -/
def renderedTsconfig (o : ProjectOptions) : String :=
  ((generate_tsconfig o).map renderJVal).getD ""

/-- The filesystem state touched by `init`: the set of existing
directories and a path-to-content mapping for files.  Paths are lists of
segments. -/
structure FSState where
  dirs : List (List String)
  files : List (List String × String)

/-- All ancestors of a path, the path itself included. -/
def pathPrefixes (p : List String) : List (List String) :=
  (List.range (p.length + 1)).map (fun n => p.take n)

/-- `fs::create_dir_all`: create the directory and every absent parent. -/
def create_dir_all (fs : FSState) (p : List String) : FSState :=
  { fs with dirs :=
      fs.dirs ++ (pathPrefixes p).filter (fun q => !(fs.dirs.contains q)) }

/-- `fs::write`: create or overwrite the file at the path. -/
def fsWrite (fs : FSState) (p : List String) (content : String) : FSState :=
  { fs with files := (p, content) :: fs.files.filter (fun f => !(f.1 == p)) }

/-- Read back a file (most recent write wins). -/
def readFile (fs : FSState) (p : List String) : Option String :=
  (fs.files.find? (fun f => f.1 == p)).map (fun f => f.2)

/-- Embedding of `init` from src/src/lib.rs, after `prompt_options` has
produced the options record: resolve the project directory from the
current working directory `cwd`, create it, generate the document and
write its rendering to `tsconfig.json` inside it.  `none` models the
panic of an unwrap inside `generate_tsconfig`. -/
def init (cwd : List String) (options : ProjectOptions) (fs : FSState) :
    Option FSState :=
  let project_dir :=
    if options.project_name == "." then cwd
    else cwd ++ [options.project_name]
  let fs := create_dir_all fs project_dir
  (generate_tsconfig options).map (fun tsconfig =>
    let tsconfig_path := project_dir ++ ["tsconfig.json"]
    fsWrite fs tsconfig_path (renderJVal tsconfig))

/-- The strictness-owned keys of the compiler-options mapping. -/
def strictnessKeys : List String :=
  ["strict", "noUncheckedIndexedAccess", "noImplicitOverride"]

/-- The options of end-to-end scenario A. -/
def optsA : ProjectOptions :=
  ⟨".", Strictness.On, true, false, false, false⟩

/-- The options of end-to-end scenario B, for an arbitrary project name. -/
def optsB (name : String) : ProjectOptions :=
  ⟨name, Strictness.Strict, false, true, true, true⟩

theorem generate_tsconfig_total (o : ProjectOptions) :
    ∃ v, generate_tsconfig o = some v := by
  obtain ⟨n, s, t, l, m, d⟩ := o
  cases s <;> cases t <;> cases l <;> cases m <;> cases d <;> exact ⟨_, rfl⟩

theorem readFile_fsWrite (fs : FSState) (p : List String) (c : String) :
    readFile (fsWrite fs p c) p = some c := by
  simp [readFile, fsWrite]

theorem mem_pathPrefixes_self (p : List String) : p ∈ pathPrefixes p := by
  refine List.mem_map.mpr ⟨p.length, ?_, List.take_length p⟩
  exact List.mem_range.mpr (Nat.lt_succ_self _)

theorem mem_create_dir_all (fs : FSState) (p : List String) :
    p ∈ (create_dir_all fs p).dirs := by
  by_cases h : p ∈ fs.dirs
  · exact List.mem_append_left _ h
  · refine List.mem_append_right _ ?_
    exact List.mem_filter.mpr ⟨mem_pathPrefixes_self p, by simp [h]⟩

/-- C1: for the options record (project_name ".", strictness On,
transpiler, not a library, not a monorepo, no DOM), the compilerOptions
mapping contains exactly thirteen keys, namely esModuleInterop=true,
skipLibCheck=true, target="es2022", allowJs=true, resolveJsonModule=true,
moduleDetection="force", isolatedModules=true, verbatimModuleSyntax=true,
strict=true, module="NodeNext", outDir="dist", sourceMap=true and
lib=["es2022"], and no other keys. -/
theorem scenarioA_exact_thirteen_keys :
    (compilerOptionsOf optsA).length = 13 ∧
    lookupKey (compilerOptionsOf optsA) "esModuleInterop" = some (JVal.bool true) ∧
    lookupKey (compilerOptionsOf optsA) "skipLibCheck" = some (JVal.bool true) ∧
    lookupKey (compilerOptionsOf optsA) "target" = some (JVal.str "es2022") ∧
    lookupKey (compilerOptionsOf optsA) "allowJs" = some (JVal.bool true) ∧
    lookupKey (compilerOptionsOf optsA) "resolveJsonModule" = some (JVal.bool true) ∧
    lookupKey (compilerOptionsOf optsA) "moduleDetection" = some (JVal.str "force") ∧
    lookupKey (compilerOptionsOf optsA) "isolatedModules" = some (JVal.bool true) ∧
    lookupKey (compilerOptionsOf optsA) "verbatimModuleSyntax" = some (JVal.bool true) ∧
    lookupKey (compilerOptionsOf optsA) "strict" = some (JVal.bool true) ∧
    lookupKey (compilerOptionsOf optsA) "module" = some (JVal.str "NodeNext") ∧
    lookupKey (compilerOptionsOf optsA) "outDir" = some (JVal.str "dist") ∧
    lookupKey (compilerOptionsOf optsA) "sourceMap" = some (JVal.bool true) ∧
    lookupKey (compilerOptionsOf optsA) "lib" = some (JVal.arr [JVal.str "es2022"]) :=
  ⟨rfl, rfl, rfl, rfl, rfl, rfl, rfl, rfl, rfl, rfl, rfl, rfl, rfl, rfl⟩

/-- C2: for any options record with strictness Strict, no transpiling,
library, monorepo and DOM all set, the compilerOptions mapping contains
the base keys, strict=true, noUncheckedIndexedAccess=true,
noImplicitOverride=true, module="preserve", noEmit=true, declaration=true,
composite=true, declarationMap=true and
lib=["es2022","dom","dom.iterable"], and contains neither outDir nor
sourceMap. -/
theorem scenarioB_overlays (name : String) :
    lookupKey (compilerOptionsOf (optsB name)) "esModuleInterop" = some (JVal.bool true) ∧
    lookupKey (compilerOptionsOf (optsB name)) "skipLibCheck" = some (JVal.bool true) ∧
    lookupKey (compilerOptionsOf (optsB name)) "target" = some (JVal.str "es2022") ∧
    lookupKey (compilerOptionsOf (optsB name)) "allowJs" = some (JVal.bool true) ∧
    lookupKey (compilerOptionsOf (optsB name)) "resolveJsonModule" = some (JVal.bool true) ∧
    lookupKey (compilerOptionsOf (optsB name)) "moduleDetection" = some (JVal.str "force") ∧
    lookupKey (compilerOptionsOf (optsB name)) "isolatedModules" = some (JVal.bool true) ∧
    lookupKey (compilerOptionsOf (optsB name)) "verbatimModuleSyntax" = some (JVal.bool true) ∧
    lookupKey (compilerOptionsOf (optsB name)) "strict" = some (JVal.bool true) ∧
    lookupKey (compilerOptionsOf (optsB name)) "noUncheckedIndexedAccess" = some (JVal.bool true) ∧
    lookupKey (compilerOptionsOf (optsB name)) "noImplicitOverride" = some (JVal.bool true) ∧
    lookupKey (compilerOptionsOf (optsB name)) "module" = some (JVal.str "preserve") ∧
    lookupKey (compilerOptionsOf (optsB name)) "noEmit" = some (JVal.bool true) ∧
    lookupKey (compilerOptionsOf (optsB name)) "declaration" = some (JVal.bool true) ∧
    lookupKey (compilerOptionsOf (optsB name)) "composite" = some (JVal.bool true) ∧
    lookupKey (compilerOptionsOf (optsB name)) "declarationMap" = some (JVal.bool true) ∧
    lookupKey (compilerOptionsOf (optsB name)) "lib"
      = some (JVal.arr [JVal.str "es2022", JVal.str "dom", JVal.str "dom.iterable"]) ∧
    lookupKey (compilerOptionsOf (optsB name)) "outDir" = none ∧
    lookupKey (compilerOptionsOf (optsB name)) "sourceMap" = none :=
  ⟨rfl, rfl, rfl, rfl, rfl, rfl, rfl, rfl, rfl, rfl, rfl, rfl, rfl, rfl, rfl,
   rfl, rfl, rfl, rfl⟩

/-- C3: the strictness field contributes exactly its own keys.  Strict
adds strict=true, noUncheckedIndexedAccess=true and
noImplicitOverride=true; On adds only strict=true; Off adds none of them,
and outside these three keys the mapping is the one produced with
strictness Off. -/
theorem strictness_overlay_exact (o : ProjectOptions) :
    (lookupKey (compilerOptionsOf o) "strict"
        = match o.strictness with
          | Strictness.Off => none
          | _ => some (JVal.bool true)) ∧
    (lookupKey (compilerOptionsOf o) "noUncheckedIndexedAccess"
        = match o.strictness with
          | Strictness.Strict => some (JVal.bool true)
          | _ => none) ∧
    (lookupKey (compilerOptionsOf o) "noImplicitOverride"
        = match o.strictness with
          | Strictness.Strict => some (JVal.bool true)
          | _ => none) ∧
    ((compilerOptionsOf o).map Prod.fst).filter
        (fun k => !(strictnessKeys.contains k))
      = ((compilerOptionsOf { o with strictness := Strictness.Off }).map
          Prod.fst).filter (fun k => !(strictnessKeys.contains k)) := by
  obtain ⟨n, s, t, l, m, d⟩ := o
  cases s <;> cases t <;> cases l <;> cases m <;> cases d <;>
    exact ⟨rfl, rfl, rfl, rfl⟩

/-- C4: the module key occurs exactly once in every generated mapping:
module="NodeNext" with outDir="dist" and sourceMap=true when
is_transpiler is set, module="preserve" with noEmit=true otherwise, and
each transpiler branch's keys are absent in the other branch. -/
theorem module_overlay_exact (o : ProjectOptions) :
    ((compilerOptionsOf o).map Prod.fst).count "module" = 1 ∧
    (lookupKey (compilerOptionsOf o) "module"
        = some (if o.is_transpiler then JVal.str "NodeNext"
                else JVal.str "preserve")) ∧
    (lookupKey (compilerOptionsOf o) "outDir"
        = if o.is_transpiler then some (JVal.str "dist") else none) ∧
    (lookupKey (compilerOptionsOf o) "sourceMap"
        = if o.is_transpiler then some (JVal.bool true) else none) ∧
    (lookupKey (compilerOptionsOf o) "noEmit"
        = if o.is_transpiler then none else some (JVal.bool true)) := by
  obtain ⟨n, s, t, l, m, d⟩ := o
  cases s <;> cases t <;> cases l <;> cases m <;> cases d <;>
    exact ⟨rfl, rfl, rfl, rfl, rfl⟩

/-- C5: the lib key occurs exactly once in every generated mapping, with
value ["es2022","dom","dom.iterable"] when is_dom is set and ["es2022"]
otherwise. -/
theorem lib_overlay_exact (o : ProjectOptions) :
    ((compilerOptionsOf o).map Prod.fst).count "lib" = 1 ∧
    lookupKey (compilerOptionsOf o) "lib"
      = some (JVal.arr (if o.is_dom
          then [JVal.str "es2022", JVal.str "dom", JVal.str "dom.iterable"]
          else [JVal.str "es2022"])) := by
  obtain ⟨n, s, t, l, m, d⟩ := o
  cases s <;> cases t <;> cases l <;> cases m <;> cases d <;>
    exact ⟨rfl, rfl⟩

/-- C6: the declaration key is present with value true exactly when
is_library is set, and entirely absent otherwise. -/
theorem declaration_iff_library (o : ProjectOptions) :
    lookupKey (compilerOptionsOf o) "declaration"
      = if o.is_library then some (JVal.bool true) else none := by
  obtain ⟨n, s, t, l, m, d⟩ := o
  cases s <;> cases t <;> cases l <;> cases m <;> cases d <;> rfl

/-- C7: generate_tsconfig is total: on every options record it returns a
document, so no unwrap on the mutable-object accessor can panic. -/
theorem generate_tsconfig_isSome (o : ProjectOptions) :
    (generate_tsconfig o).isSome = true := by
  obtain ⟨v, hv⟩ := generate_tsconfig_total o
  simp [hv]

/-- C8: the generator is deterministic: two runs on the same options
record render to byte-identical output strings. -/
theorem rendered_tsconfig_deterministic (o1 o2 : ProjectOptions)
    (h : o1 = o2) : renderedTsconfig o1 = renderedTsconfig o2 := by
  rw [h]

/-- Witness for C8 at scenario A's options. -/
theorem rendered_tsconfig_deterministic_witness :
    renderedTsconfig optsA = renderedTsconfig optsA :=
  rendered_tsconfig_deterministic optsA optsA rfl

/-- C9: init writes the rendered document to cwd/tsconfig.json when the
project name is the sentinel ".", and to cwd/name/tsconfig.json for any
other name, the target directory existing afterwards in both cases. -/
theorem init_output_path (cwd : List String) (o : ProjectOptions)
    (fs : FSState) :
    ∃ fs2, init cwd o fs = some fs2 ∧
      (if o.project_name = "." then
        readFile fs2 (cwd ++ ["tsconfig.json"]) = some (renderedTsconfig o) ∧
          cwd ∈ fs2.dirs
      else
        readFile fs2 (cwd ++ [o.project_name, "tsconfig.json"])
            = some (renderedTsconfig o) ∧
          (cwd ++ [o.project_name]) ∈ fs2.dirs) := by
  obtain ⟨v, hv⟩ := generate_tsconfig_total o
  by_cases h : o.project_name = "."
  · refine ⟨fsWrite (create_dir_all fs cwd) (cwd ++ ["tsconfig.json"])
      (renderJVal v), ?_, ?_⟩
    · simp [init, h, hv]
    · rw [if_pos h]
      refine ⟨?_, ?_⟩
      · rw [readFile_fsWrite]
        simp [renderedTsconfig, hv]
      · exact mem_create_dir_all fs cwd
  · refine ⟨fsWrite (create_dir_all fs (cwd ++ [o.project_name]))
      (cwd ++ [o.project_name, "tsconfig.json"]) (renderJVal v), ?_, ?_⟩
    · simp [init, h, hv]
    · rw [if_neg h]
      refine ⟨?_, ?_⟩
      · rw [readFile_fsWrite]
        simp [renderedTsconfig, hv]
      · exact mem_create_dir_all fs (cwd ++ [o.project_name])

/-- C10: the generated document is independent of the project name: two
options records agreeing on strictness and the four booleans produce the
same document. -/
theorem generate_tsconfig_name_independent (o1 o2 : ProjectOptions)
    (hs : o1.strictness = o2.strictness)
    (ht : o1.is_transpiler = o2.is_transpiler)
    (hl : o1.is_library = o2.is_library)
    (hm : o1.is_monorepo = o2.is_monorepo)
    (hd : o1.is_dom = o2.is_dom) :
    generate_tsconfig o1 = generate_tsconfig o2 := by
  obtain ⟨n1, s1, t1, l1, m1, d1⟩ := o1
  obtain ⟨n2, s2, t2, l2, m2, d2⟩ := o2
  cases hs
  cases ht
  cases hl
  cases hm
  cases hd
  rfl

/-- Witness for C10: records differing only in project name generate
identical documents. -/
theorem generate_tsconfig_name_independent_witness :
    generate_tsconfig ⟨".", Strictness.On, true, false, false, false⟩
      = generate_tsconfig ⟨"myproj", Strictness.On, true, false, false, false⟩ :=
  generate_tsconfig_name_independent _ _ rfl rfl rfl rfl rfl
